import Mathlib

/-!
# Verification of the qnet network quorum tiebreaker

Shallow embedding of the core of the `qnet` repository:

* `ping.c` — raw-ICMP echo primitive (`icmp_checksum`, `icmp_ping_getaddr`,
  `icmp_ping_addrfd`, `icmp_ping_strerror`);
* `cluquorumd_net.c` — liveness voter thread (`net_quorum_thread`),
  threshold calculation (`get_interval_tko`) and configuration
  (`net_tiebreaker_init`).

Machine integers are modelled as `Nat`/`Int`, with wraparound written
explicitly (`% 2^32`) where the C code's unsigned arithmetic matters.
External libc calls (`inet_pton`, `gethostbyname`, `sendto`, `select`,
`recvfrom`, `strerror`) are environment inputs: they are passed in as
function parameters or as event lists that drive the loops.
The target platform is taken to be x86-64 Linux (little-endian, signed
`char`), the platform the accompanying Makefile builds for.
-/

namespace Qnet

/-! ## Result codes and constants, from ping.h and netinet headers -/

def PING_ERRNO : Int := -1

def PING_SUCCESS : Int := 0

def PING_TIMEOUT : Int := 1

def PING_HOST_UNREACH : Int := 2

def PING_HOST_NOT_FOUND : Int := 3

def PING_INVALID_CHECKSUM : Int := 4

def PING_INVALID_RESPONSE : Int := 5

def PING_INVALID_SIZE : Int := 6

def PING_INVALID_ID : Int := 7

/-- `ICMP_ECHO` from netinet/ip_icmp.h. -/
def ICMP_ECHO : Nat := 8

/-- `ICMP_ECHOREPLY` from netinet/ip_icmp.h. -/
def ICMP_ECHOREPLY : Nat := 0

/-- `ICMP_DEST_UNREACH` from netinet/ip_icmp.h. -/
def ICMP_DEST_UNREACH : Nat := 3

/-- `ICMP_MINLEN` (8 bytes: the fixed ICMP header). -/
def ICMP_MINLEN : Nat := 8

/-- Linux errno values used by `icmp_ping_strerror` and `net_tiebreaker_init`. -/
def ETIMEDOUT : Int := 110

def EHOSTUNREACH : Int := 113

def EINVAL : Int := 22

/-- A C `ssize_t`/`int` value stored into a `uint32_t` variable:
reduction modulo 2^32 (so `-1` becomes `0xFFFFFFFF`). -/
def uint32 (r : Int) : Nat := (r % (2 ^ 32 : Int)).toNat

/-! ## icmp_checksum (ping.c, lines 43-65)

The C loop reads the buffer two bytes at a time through a
`uint16_t *` (little-endian on the target platform, so a word is
`lo + 256 * hi`), and adds a single trailing odd byte through a
`char *` (signed char on the target platform): a trailing byte
`b ≥ 128` is sign-extended, which on the `uint32_t` accumulator adds
`b + 0xFFFFFF00` (that is, `(b - 256) mod 2^32`).

The additions wrap modulo 2^32 step by step; since `mod` commutes with
addition, the accumulated value equals the plain sum reduced once at
the end, which is how `icmp_sum`/`icmp_checksum` are written here. -/

/-- The accumulation loop of `icmp_checksum`: little-endian 16-bit words,
with a trailing odd byte added via sign-extending `char`. The result is
the mathematically exact sum; `icmp_checksum` reduces it `% 2^32`. -/
def icmp_sum : List Nat → Nat
  | b0 :: b1 :: rest => (b0 + 256 * b1) + icmp_sum rest
  | [b] => if b < 128 then b else b + 0xFFFFFF00
  | [] => 0

/-- `icmp_checksum` (ping.c): one's-complement 16-bit checksum with the
double carry fold `sum = (sum>>16)+(sum&0xffff); sum += (sum>>16);`
and final `(~sum) & 0xffff`.  After the folds `sum < 2^32`, so the
`uint32_t` complement `~sum` is `2^32 - 1 - sum`. -/
def icmp_checksum (buf : List Nat) : Nat :=
  let sum0 := icmp_sum buf % 2 ^ 32
  let sum1 := (sum0 >>> 16) + (sum0 &&& 0xFFFF)
  let sum2 := sum1 + (sum1 >>> 16)
  (2 ^ 32 - 1 - sum2) &&& 0xFFFF

/-! ## Liveness voter (cluquorumd_net.c, net_quorum_thread, lines 69-174)

One iteration of the `while (1)` loop of `net_quorum_thread`, as a pure
function of the state it reads and writes:

* `net_vote_alive` — the published vote (global, under `net_lock`);
* `hits`, `misses` — the thread's local consecutive counters;
* the ping outcome of this cycle (`icmp_ping_host(target, 0, 1) == 0`);
* whether `tb_ip` changed between the initial snapshot and the
  re-check after the ping (`strcmp(tb_ip, target)` nonzero).

The `_online`/`_offline` thresholds are the snapshots of
`declare_online`/`declare_offline`. -/

structure CycleOut where
  /-- value of `net_vote_alive` after the cycle -/
  published : Bool
  /-- local `hits` counter after the cycle -/
  hits : Nat
  /-- local `misses` counter after the cycle -/
  misses : Nat
  /-- the cycle hit the `restart`/`continue` path (target changed) -/
  restarted : Bool
deriving DecidableEq, Repr

/-- One cycle of `net_quorum_thread`.  Mirrors the source order:
`alive = 0`; `was_alive = net_vote_alive`; ping; on success
`misses = 0; alive = 1`, on failure `hits = 0`; then the target
re-check (`continue` leaves `net_vote_alive` unwritten but keeps the
counter updates already made); then the hysteresis transition and the
publish `net_vote_alive = alive`. -/
def voter_cycle (_online _offline : Nat) (net_vote_alive : Bool)
    (hits misses : Nat) (ping_ok : Bool) (target_changed : Bool) : CycleOut :=
  let was_alive := net_vote_alive
  let alive := ping_ok
  let hits' := if ping_ok then hits else 0
  let misses' := if ping_ok then 0 else misses
  if target_changed then
    -- `continue`: net_vote_alive is not written this cycle
    ⟨net_vote_alive, hits', misses', true⟩
  else if was_alive && !alive then
    -- `if (++misses < _offline) alive = was_alive; else declare offline`
    if misses' + 1 < _offline then ⟨was_alive, hits', misses' + 1, false⟩
    else ⟨alive, hits', misses' + 1, false⟩
  else if !was_alive && alive then
    -- `if (++hits < _online) { alive = was_alive; misses = 0; } else online`
    if hits' + 1 < _online then ⟨was_alive, hits' + 1, 0, false⟩
    else ⟨alive, hits' + 1, misses', false⟩
  else ⟨alive, hits', misses', false⟩

/-- Run the voter over a list of ping outcomes (no target changes),
collecting the published vote after each cycle. -/
def voter_run (_online _offline : Nat) (pub : Bool) (h m : Nat) :
    List Bool → List Bool
  | [] => []
  | ok :: rest =>
    let o := voter_cycle _online _offline pub h m ok false
    o.published :: voter_run _online _offline o.published o.hits o.misses rest

/-! ## Claim C1 -/

/-- C1: starting the voter in state Dead with `online_hits = 3` and
`offline_misses = 2`, the outcome sequence `[fail, fail, success,
success, success]` publishes `[Dead, Dead, Dead, Dead, Alive]`, and the
mixed sequence `[success, fail, success, success, success]` also
publishes Alive only on the fifth cycle, because the failure resets the
hit counter and three fresh consecutive hits are required. -/
theorem C1_hysteresis_sequences :
    voter_run 3 2 false 0 0 [false, false, true, true, true] =
      [false, false, false, false, true]
  ∧ voter_run 3 2 false 0 0 [true, false, true, true, true] =
      [false, false, false, false, true] := by
  constructor <;> rfl

/-! ## Claim C4 -/

/-- C4 counterexample: with published vote Alive, `hits = 0`,
`misses = 1`, a cycle whose ping succeeds but whose target changed
mid-cycle leaves the `misses` counter at `0`, not at its prior value
`1`: the `misses = 0` reset from the success branch runs before the
target re-check, so VoteState's counters are mutated even though the
cycle's result is discarded. -/
theorem C4_counterexample :
    (voter_cycle 3 2 true 0 1 true true).misses ≠ 1 := by decide

/-- C4 amended: if the target changes between the snapshot and the
completion of the ping, the cycle's result is discarded without
touching the published vote (`net_vote_alive` keeps its previous
value), but the counter resets of the outcome-processing step have
already been applied and persist: on a successful ping `misses` has
been reset to `0`, on a failed ping `hits` has been reset to `0`. -/
theorem C4_restart_keeps_vote_but_resets_counters
    (_online _offline : Nat) (pub : Bool) (h m : Nat) (ok : Bool) :
    voter_cycle _online _offline pub h m ok true =
      ⟨pub, if ok then h else 0, if ok then 0 else m, true⟩ := by
  cases ok <;> rfl

/-! ## Claim C7 -/

/-- C7 counterexample: for the odd-length buffer `[0x80]` the checksum
differs from the checksum of `[0x80, 0x00]`.  The trailing odd byte is
added through a signed `char`, so `0x80` is sign-extended and
contributes `0xFFFF80` extra carry into the fold, while in the padded
even-length buffer it is read as the low byte of the word `0x0080`.
`icmp_checksum [0x80] = 0x007F` but `icmp_checksum [0x80, 0] = 0xFF7F`. -/
theorem C7_counterexample : icmp_checksum [128] ≠ icmp_checksum [128, 0] := by
  decide

/-- Helper for C7: for an even-length prefix `l`, appending a final byte
`b < 128` produces the same accumulated sum as appending `b` followed by
a zero pad byte.  (For `b < 128` the `char` read of the odd trailing
byte does not sign-extend, and the little-endian word `[b, 0]` is again
just `b`.) -/
theorem icmp_sum_append_zero (b : Nat) (hb : b < 128) :
    ∀ l : List Nat, l.length % 2 = 0 →
      icmp_sum (l ++ [b]) = icmp_sum (l ++ [b, 0])
  | [], _ => by simp [icmp_sum, hb]
  | [x], h => by simp at h
  | x :: y :: rest, h => by
    have hr : rest.length % 2 = 0 := by
      simp only [List.length_cons] at h
      omega
    have ih := icmp_sum_append_zero b hb rest hr
    simp only [List.cons_append, icmp_sum, List.append_eq] at ih ⊢
    rw [ih]

/-- C7 amended: for an odd-length buffer whose trailing byte is below
`0x80`, `icmp_checksum` agrees with the checksum of the buffer with one
zero byte appended (the trailing byte is then the low byte of the final
little-endian word).  For a trailing byte `≥ 0x80` the two differ,
because the odd byte is added through a sign-extending `char`
(see the C7 counterexample at `[0x80]`). -/
theorem C7_odd_buffer_zero_pad (l : List Nat) (b : Nat)
    (hlen : l.length % 2 = 0) (hb : b < 128) :
    icmp_checksum (l ++ [b]) = icmp_checksum (l ++ [b, 0]) := by
  have hsum := icmp_sum_append_zero b hb l hlen
  unfold icmp_checksum
  rw [hsum]

/-- C7 witness: the amended theorem at the concrete buffer `[1, 2, 3]`
(even prefix `[1, 2]`, trailing byte `3 < 128`). -/
theorem C7_witness :
    ([1, 2] : List Nat).length % 2 = 0 ∧ (3 : Nat) < 128 ∧
      icmp_checksum ([1, 2] ++ [3]) = icmp_checksum ([1, 2] ++ [3, 0]) :=
  ⟨by decide, by decide, C7_odd_buffer_zero_pad [1, 2] 3 (by decide) (by decide)⟩

/-! ## icmp_ping_addrfd (ping.c, lines 151-263)

The function drives a raw socket.  The socket's behaviour is an
environment input: the successive `sendto` return values are a
`List Int`, and each iteration of the receive loop consumes one
`RecvEvent` holding the `select` return value, the `recvfrom` return
value, and the ICMP packet found in the buffer after the call.

The local variable `x` in the C source is `uint32_t`, so every
`sendto`/`select`/`recvfrom` result is stored through `uint32` below,
exactly as the C assignments truncate it.  In particular `-1` becomes
`0xFFFFFFFF`, so the source's `x < 0` checks can never fire. -/

structure IcmpPacket where
  /-- IP header length field, in 32-bit words (`ipp->ip_hl`) -/
  ip_hl : Nat
  icmp_type : Nat
  icmp_code : Nat
  /-- stored 16-bit checksum field (`packetp->icmp_cksum`) -/
  icmp_cksum : Nat
  /-- 16-bit identifier field (`packetp->icmp_id`) -/
  icmp_id : Nat
  /-- 16-bit sequence field (`packetp->icmp_seq`) -/
  icmp_seq : Nat
deriving DecidableEq, Repr

/-- The `ICMP_MINLEN` (8) header bytes of a received packet as they sit
in memory (little-endian fields) with the checksum field zeroed, which
is the buffer `icmp_ping_addrfd` feeds to `icmp_checksum` for
validation (`packetp->icmp_cksum = 0;` first). -/
def icmp_bytes_zeroed_cksum (p : IcmpPacket) : List Nat :=
  [p.icmp_type, p.icmp_code, 0, 0,
   p.icmp_id % 256, p.icmp_id / 256, p.icmp_seq % 256, p.icmp_seq / 256]

/-- `packetlen = sizeof(uint16_t) * ICMP_MINLEN` = 16 bytes. -/
def packetlen : Nat := 2 * ICMP_MINLEN

/-- Outcome of the send phase of `icmp_ping_addrfd`. -/
inductive SendOut where
  /-- the dead `if (x < 0) return -1;` branch -/
  | err : SendOut
  /-- the `while` condition became false: full packet considered sent -/
  | sent : SendOut
  /-- the event list ran out while the loop was still resending -/
  | blocked : SendOut
deriving DecidableEq, Repr

/-- The send loop of `icmp_ping_addrfd`:
`while ((x = sendto(...)) < packetlen) if (x < 0) return -1;`
with `x : uint32_t`.  A short write (`x < packetlen`) re-sends; the
`x < 0` test is on an unsigned value (kept verbatim here on the `Nat`
image, where it is equally unsatisfiable), so a `sendto` failure `-1`
is stored as `0xFFFFFFFF ≥ packetlen` and exits the loop as if the
packet had been sent. -/
def send_loop : List Int → SendOut
  | [] => .blocked
  | r :: rest =>
    let x := uint32 r
    if x < packetlen then
      if x < 0 then .err else send_loop rest
    else .sent

/-- One receive-loop iteration's environment: the `select` result, the
`recvfrom` result, and the buffer contents after the call. -/
structure RecvEvent where
  selRet : Int
  recvRet : Int
  pkt : IcmpPacket
deriving DecidableEq, Repr

/-- The receive loop of `icmp_ping_addrfd` (the `while (1)` at line
194), consuming one `RecvEvent` per iteration; `none` means the event
list ran out with the loop still waiting.

* the inner `while ((x = select(...)) <= 0)` has `x : uint32_t`, so its
  body runs only when `x == 0` and then returns `PING_TIMEOUT`; a
  `select` failure `-1` is `0xFFFFFFFF > 0` and falls through to
  `recvfrom` (the `return -1` in its body is unreachable);
* the `recvfrom` error check `if ((x = recvfrom(...)) < 0) return -1;`
  likewise never fires, and `x = 0xFFFFFFFF` then passes the size test;
* size, checksum and echo-id validation failures `continue` when
  `timeout` is nonzero and return their specific error when it is 0;
* the type dispatch: echo/echo-reply check the id; destination
  unreachable and any other type return unconditionally. -/
def recv_loop (pid timeout : Nat) : List RecvEvent → Option Int
  | [] => none
  | ev :: rest =>
    if uint32 ev.selRet = 0 then some PING_TIMEOUT
    else if uint32 ev.recvRet < (ev.pkt.ip_hl <<< 2) + ICMP_MINLEN then
      (if timeout ≠ 0 then recv_loop pid timeout rest
       else some PING_INVALID_SIZE)
    else if ev.pkt.icmp_cksum ≠ icmp_checksum (icmp_bytes_zeroed_cksum ev.pkt) then
      (if timeout ≠ 0 then recv_loop pid timeout rest
       else some PING_INVALID_CHECKSUM)
    else if ev.pkt.icmp_type = ICMP_ECHO ∨ ev.pkt.icmp_type = ICMP_ECHOREPLY then
      (if ev.pkt.icmp_id ≠ pid then
        (if timeout ≠ 0 then recv_loop pid timeout rest
         else some PING_INVALID_ID)
       else some PING_SUCCESS)
    else if ev.pkt.icmp_type = ICMP_DEST_UNREACH then some PING_HOST_UNREACH
    else some PING_INVALID_RESPONSE

/-- `icmp_ping_addrfd`: send phase followed by the receive loop.
`pid` is the process id stamped into outgoing packets and compared
against `packetp->icmp_id`. -/
def icmp_ping_addrfd (pid timeout : Nat) (sends : List Int)
    (evs : List RecvEvent) : Option Int :=
  match send_loop sends with
  | .err => some PING_ERRNO
  | .blocked => none
  | .sent => recv_loop pid timeout evs

/-! ## Claim C3 -/

/-- C3: the send-phase error return of `icmp_ping_addrfd` is dead code.
Because `x` is `uint32_t`, `sendto` returning `-1` is stored as
`0xFFFFFFFF`, which is not `< packetlen`, so the loop exits as if the
send had succeeded; the same unsigned comparison kills the `select` and
`recvfrom` error checks.  Concretely:

* no send trace can ever reach the `-1` return (`send_loop` never
  yields `.err`) — contradicting both the claim and the source's own
  doc comment ("-1 on syscall error");
* a ping whose single `sendto` fails with `-1` and whose `select` then
  times out returns `PING_TIMEOUT`, not `-1`;
* a ping whose `select` and `recvfrom` both fail with `-1`
  (with `timeout == 0`) returns `PING_INVALID_CHECKSUM` computed over
  the stale buffer, not `-1`.

(A short send `8 < packetlen` does loop and re-send — that half of the
claim matches the code: `send_loop [8]` is still looping, and
`send_loop [8, 16]` completes.) -/
theorem C3_io_error_returns_dead :
    (∀ sends : List Int, send_loop sends ≠ SendOut.err)
  ∧ icmp_ping_addrfd 7 5 [-1] [⟨0, 0, ⟨0, 0, 0, 0, 0, 0⟩⟩] = some PING_TIMEOUT
  ∧ icmp_ping_addrfd 7 0 [16] [⟨-1, -1, ⟨0, 0, 0, 0, 0, 0⟩⟩] =
      some PING_INVALID_CHECKSUM
  ∧ send_loop [8] = SendOut.blocked
  ∧ send_loop [8, 16] = SendOut.sent := by
  refine ⟨?_, by decide, by decide, by decide, by decide⟩
  intro sends
  induction sends with
  | nil => simp [send_loop]
  | cons r rest ih =>
    simp only [send_loop]
    split
    · rw [if_neg (by omega)]
      exact ih
    · simp

/-! ## Claim C6 -/

/-- C6: in `icmp_ping_addrfd` with `timeout > 0` an elapsed deadline
(`select` returning 0) returns `PING_TIMEOUT`, and a received packet
failing the size, checksum, or echo-identity validation makes the loop
wait for another packet (the result is that of the remaining events);
with `timeout == 0` each of those three validation failures returns
immediately as `PING_INVALID_SIZE`, `PING_INVALID_CHECKSUM`, or
`PING_INVALID_ID`, with no retry. -/
theorem C6_validation_retry_policy (pid t : Nat) (ev : RecvEvent)
    (rest : List RecvEvent) (ht : t ≠ 0) :
    (uint32 ev.selRet = 0 → recv_loop pid t (ev :: rest) = some PING_TIMEOUT)
  ∧ (uint32 ev.selRet ≠ 0 →
      uint32 ev.recvRet < (ev.pkt.ip_hl <<< 2) + ICMP_MINLEN →
        recv_loop pid t (ev :: rest) = recv_loop pid t rest
      ∧ recv_loop pid 0 (ev :: rest) = some PING_INVALID_SIZE)
  ∧ (uint32 ev.selRet ≠ 0 →
      ¬ uint32 ev.recvRet < (ev.pkt.ip_hl <<< 2) + ICMP_MINLEN →
      ev.pkt.icmp_cksum ≠ icmp_checksum (icmp_bytes_zeroed_cksum ev.pkt) →
        recv_loop pid t (ev :: rest) = recv_loop pid t rest
      ∧ recv_loop pid 0 (ev :: rest) = some PING_INVALID_CHECKSUM)
  ∧ (uint32 ev.selRet ≠ 0 →
      ¬ uint32 ev.recvRet < (ev.pkt.ip_hl <<< 2) + ICMP_MINLEN →
      ev.pkt.icmp_cksum = icmp_checksum (icmp_bytes_zeroed_cksum ev.pkt) →
      (ev.pkt.icmp_type = ICMP_ECHO ∨ ev.pkt.icmp_type = ICMP_ECHOREPLY) →
      ev.pkt.icmp_id ≠ pid →
        recv_loop pid t (ev :: rest) = recv_loop pid t rest
      ∧ recv_loop pid 0 (ev :: rest) = some PING_INVALID_ID) := by
  have hz : ¬ (0 : Nat) ≠ 0 := fun h => h rfl
  refine ⟨fun h0 => ?_, fun hs hx => ⟨?_, ?_⟩, fun hs hx hck => ⟨?_, ?_⟩,
    fun hs hx hck hty hid => ⟨?_, ?_⟩⟩
  · simp only [recv_loop]
    rw [if_pos h0]
  · simp only [recv_loop]
    rw [if_neg hs, if_pos hx, if_pos ht]
  · simp only [recv_loop]
    rw [if_neg hs, if_pos hx, if_neg hz]
  · simp only [recv_loop]
    rw [if_neg hs, if_neg hx, if_pos hck, if_pos ht]
  · simp only [recv_loop]
    rw [if_neg hs, if_neg hx, if_pos hck, if_neg hz]
  · simp only [recv_loop]
    rw [if_neg hs, if_neg hx, if_neg (not_not_intro hck), if_pos hty,
      if_pos hid, if_pos ht]
  · simp only [recv_loop]
    rw [if_neg hs, if_neg hx, if_neg (not_not_intro hck), if_pos hty,
      if_pos hid, if_neg hz]

/-- C6 witness: `C6_validation_retry_policy` applied at concrete events.
The size-fail event receives 7 bytes with `ip_hl = 0` (needs 8); the
checksum-fail event carries stored checksum 0 where the header bytes
`[0,0,0,0,0,0,0,0]` sum to checksum `0xFFFF`; the id-fail event is a
valid echo-reply (stored checksum `65526` over `[0,0,0,0,9,0,0,0]`)
whose id 9 differs from the process id 7. -/
theorem C6_witness :
    recv_loop 7 5 [⟨0, 0, ⟨0, 0, 0, 0, 0, 0⟩⟩] = some PING_TIMEOUT
  ∧ (recv_loop 7 5 [⟨1, 7, ⟨0, 0, 0, 0, 0, 0⟩⟩] = recv_loop 7 5 []
      ∧ recv_loop 7 0 [⟨1, 7, ⟨0, 0, 0, 0, 0, 0⟩⟩] = some PING_INVALID_SIZE)
  ∧ (recv_loop 7 5 [⟨1, 28, ⟨5, 0, 0, 0, 0, 0⟩⟩] = recv_loop 7 5 []
      ∧ recv_loop 7 0 [⟨1, 28, ⟨5, 0, 0, 0, 0, 0⟩⟩] = some PING_INVALID_CHECKSUM)
  ∧ (recv_loop 7 5 [⟨1, 28, ⟨5, 0, 0, 65526, 9, 0⟩⟩] = recv_loop 7 5 []
      ∧ recv_loop 7 0 [⟨1, 28, ⟨5, 0, 0, 65526, 9, 0⟩⟩] = some PING_INVALID_ID) :=
  ⟨(C6_validation_retry_policy 7 5 ⟨0, 0, ⟨0, 0, 0, 0, 0, 0⟩⟩ []
      (by decide)).1 (by decide),
   (C6_validation_retry_policy 7 5 ⟨1, 7, ⟨0, 0, 0, 0, 0, 0⟩⟩ []
      (by decide)).2.1 (by decide) (by decide),
   (C6_validation_retry_policy 7 5 ⟨1, 28, ⟨5, 0, 0, 0, 0, 0⟩⟩ []
      (by decide)).2.2.1 (by decide) (by decide) (by decide),
   (C6_validation_retry_policy 7 5 ⟨1, 28, ⟨5, 0, 0, 65526, 9, 0⟩⟩ []
      (by decide)).2.2.2 (by decide) (by decide) (by decide)
      (by decide) (by decide)⟩

/-! ## Claim C9 -/

/-- C9: once a received packet passes the size and checksum
validations, the dispatch on its ICMP type is final in both timeout
modes: a destination-unreachable packet returns `PING_HOST_UNREACH`
immediately, with no echo-identity check (its `icmp_id` is
unconstrained), and a packet of any type other than echo, echo-reply,
or destination-unreachable returns `PING_INVALID_RESPONSE` immediately
rather than re-waiting, for every `timeout` including nonzero ones
(the remaining events `rest` are never consulted). -/
theorem C9_type_dispatch_is_final (pid t : Nat) (ev : RecvEvent)
    (rest : List RecvEvent)
    (hs : uint32 ev.selRet ≠ 0)
    (hx : ¬ uint32 ev.recvRet < (ev.pkt.ip_hl <<< 2) + ICMP_MINLEN)
    (hck : ev.pkt.icmp_cksum = icmp_checksum (icmp_bytes_zeroed_cksum ev.pkt)) :
    (ev.pkt.icmp_type = ICMP_DEST_UNREACH →
      recv_loop pid t (ev :: rest) = some PING_HOST_UNREACH)
  ∧ (ev.pkt.icmp_type ≠ ICMP_ECHO → ev.pkt.icmp_type ≠ ICMP_ECHOREPLY →
     ev.pkt.icmp_type ≠ ICMP_DEST_UNREACH →
      recv_loop pid t (ev :: rest) = some PING_INVALID_RESPONSE) := by
  constructor
  · intro hty
    have hne : ¬ (ev.pkt.icmp_type = ICMP_ECHO ∨ ev.pkt.icmp_type = ICMP_ECHOREPLY) := by
      rw [hty]
      decide
    simp only [recv_loop]
    rw [if_neg hs, if_neg hx, if_neg (not_not_intro hck), if_neg hne, if_pos hty]
  · intro h8 h0 h3
    have hne : ¬ (ev.pkt.icmp_type = ICMP_ECHO ∨ ev.pkt.icmp_type = ICMP_ECHOREPLY) := by
      rintro (h | h)
      · exact h8 h
      · exact h0 h
    simp only [recv_loop]
    rw [if_neg hs, if_neg hx, if_neg (not_not_intro hck), if_neg hne, if_neg h3]

/-- C9 witness: `C9_type_dispatch_is_final` applied to a
destination-unreachable packet carrying a foreign id 9 (stored checksum
`65523` over `[3,0,0,0,9,0,0,0]`) and to a packet of unknown type 42
(stored checksum `65493` over `[42,0,0,0,0,0,0,0]`), each with a
nonzero timeout and a pending further event that is never consulted. -/
theorem C9_witness :
    recv_loop 7 5 [⟨1, 28, ⟨5, 3, 0, 65523, 9, 0⟩⟩, ⟨0, 0, ⟨0, 0, 0, 0, 0, 0⟩⟩] =
      some PING_HOST_UNREACH
  ∧ recv_loop 7 5 [⟨1, 28, ⟨5, 42, 0, 65493, 0, 0⟩⟩, ⟨0, 0, ⟨0, 0, 0, 0, 0, 0⟩⟩] =
      some PING_INVALID_RESPONSE :=
  ⟨(C9_type_dispatch_is_final 7 5 ⟨1, 28, ⟨5, 3, 0, 65523, 9, 0⟩⟩
      [⟨0, 0, ⟨0, 0, 0, 0, 0, 0⟩⟩] (by decide) (by decide) (by decide)).1
      (by decide),
   (C9_type_dispatch_is_final 7 5 ⟨1, 28, ⟨5, 42, 0, 65493, 0, 0⟩⟩
      [⟨0, 0, ⟨0, 0, 0, 0, 0, 0⟩⟩] (by decide) (by decide) (by decide)).2
      (by decide) (by decide) (by decide)⟩

/-! ## icmp_ping_getaddr (ping.c, lines 91-134)

`inet_pton` and `gethostbyname` are libc environment inputs:
`pton` maps the hostname to `some addr` exactly when
`inet_pton(AF_INET, hostname, ...)` would return a positive value and
write `addr`; `resolver` is the list of successive `gethostbyname`
outcomes (the source loops on `TRY_AGAIN`). -/

/-- Outcome of one `gethostbyname` call, per the `h_errno` cases the
source distinguishes. -/
inductive ResolverRes where
  | ok (addr : Nat) : ResolverRes
  | tryAgain : ResolverRes
  | hostNotFound : ResolverRes
  | noAddress : ResolverRes
  | noRecovery : ResolverRes
  | otherErr : ResolverRes
deriving DecidableEq, Repr

/-- The `while ((hp = gethostbyname(hostname)) == NULL)` loop:
`TRY_AGAIN` continues; `HOST_NOT_FOUND`/`NO_ADDRESS`/`NO_RECOVERY`
return `PING_HOST_NOT_FOUND`; any other `h_errno` returns `-1`;
success copies `hp->h_addr` into `sin_addr` and returns 0.
`none` means every supplied outcome was `TRY_AGAIN` (still retrying). -/
def gethostbyname_loop : List ResolverRes → Option (Int × Option Nat)
  | [] => none
  | r :: rest =>
    match r with
    | .ok addr => some (0, some addr)
    | .tryAgain => gethostbyname_loop rest
    | .hostNotFound => some (PING_HOST_NOT_FOUND, none)
    | .noAddress => some (PING_HOST_NOT_FOUND, none)
    | .noRecovery => some (PING_HOST_NOT_FOUND, none)
    | .otherErr => some (-1, none)

/-- Result of `icmp_ping_getaddr`: the return value together with the
address written into `sin_send->sin_addr` (`none` = left zeroed by the
initial `memset`), plus whether `gethostbyname` was invoked at all. -/
structure GetaddrOut where
  out : Option (Int × Option Nat)
  resolverCalled : Bool
deriving DecidableEq, Repr

/-- `icmp_ping_getaddr`: if the first character of the hostname is a
decimal digit AND `inet_pton` parses it, return the literal address
without resolving; otherwise (including a digit-leading name that
`inet_pton` rejects — the `&&` merely short-circuits past `inet_pton`
when the first character is not a digit) fall through to the
`gethostbyname` loop. -/
def icmp_ping_getaddr (pton : List Char → Option Nat)
    (resolver : List ResolverRes) (hostname : List Char) : GetaddrOut :=
  let headDigit := match hostname with
    | [] => false
    | c :: _ => c.isDigit
  match (if headDigit then pton hostname else none) with
  | some addr => ⟨some (0, some addr), false⟩
  | none => ⟨gethostbyname_loop resolver, true⟩

/-! ## Claim C5 -/

/-- C5 counterexample: the digit-leading hostname `"1.invalid.example"`
is not a dotted quad, so `inet_pton` rejects it (modelled by a `pton`
returning `none` on it), and `icmp_ping_getaddr` then DOES invoke the
name resolver — refuting "digit-leading input is never sent to the name
resolver, even when literal parsing fails". -/
theorem C5_counterexample :
    (icmp_ping_getaddr (fun _ => none) [.hostNotFound]
      ['1', '.', 'i', 'n', 'v', 'a', 'l', 'i', 'd', '.',
       'e', 'x', 'a', 'm', 'p', 'l', 'e']).resolverCalled = true := by
  decide

/-- C5 amended: for a hostname whose first character is a decimal
digit, literal parsing is attempted first; if `inet_pton` succeeds the
literal address is returned and name resolution is never invoked, but
if `inet_pton` fails the name falls through to the resolver (so
digit-leading non-literals ARE sent to `gethostbyname`). -/
theorem C5_digit_literal_first (pton : List Char → Option Nat)
    (resolver : List ResolverRes) (c : Char) (rest : List Char)
    (hc : c.isDigit = true) :
    (∀ addr, pton (c :: rest) = some addr →
      icmp_ping_getaddr pton resolver (c :: rest) = ⟨some (0, some addr), false⟩)
  ∧ (pton (c :: rest) = none →
      (icmp_ping_getaddr pton resolver (c :: rest)).resolverCalled = true) := by
  constructor
  · intro addr haddr
    simp [icmp_ping_getaddr, hc, haddr]
  · intro hnone
    simp [icmp_ping_getaddr, hc, hnone]

/-- C5 witness: `C5_digit_literal_first` at `"127.0.0.1"` with a `pton`
that parses it to `0x7F000001` (2130706433): the literal address is
returned and the resolver is not called. -/
theorem C5_witness :
    ('1' : Char).isDigit = true ∧
      icmp_ping_getaddr (fun _ => some 2130706433) [.hostNotFound]
        ['1', '2', '7', '.', '0', '.', '0', '.', '1'] =
        ⟨some (0, some 2130706433), false⟩ :=
  ⟨by decide,
   (C5_digit_literal_first (fun _ => some 2130706433) [.hostNotFound] '1'
      ['2', '7', '.', '0', '.', '0', '.', '1'] (by decide)).1 2130706433 rfl⟩

/-! ## icmp_ping_strerror (ping.c, lines 352-387) -/

/-- Outcome of the `switch` in `icmp_ping_strerror`: either a direct
`return` with a string, or a `break` (falling through to the final
`snprintf(buf, "Unkown (%d)", rv)`), carrying what the case wrote into
the static buffer before breaking (discarded by the fall-through
rewrite; the `default:` case writes nothing, modelled as `""`). -/
inductive StrerrorSwitchOut where
  | ret (s : String) : StrerrorSwitchOut
  | brk (buf : String) : StrerrorSwitchOut
deriving DecidableEq, Repr

/-- The `switch (rv)` of `icmp_ping_strerror`.  `sys` models libc
`strerror`, and `errnoVal` the current `errno`.  Note the
`PING_INVALID_CHECKSUM` case: it formats "Invalid checksum" into the
buffer but then `break`s instead of returning. -/
def strerror_switch (sys : Int → String) (errnoVal rv : Int) :
    StrerrorSwitchOut :=
  if rv = PING_ERRNO then .ret (sys errnoVal)
  else if rv = PING_SUCCESS then .ret (sys 0)
  else if rv = PING_TIMEOUT then .ret (sys ETIMEDOUT)
  else if rv = PING_HOST_UNREACH then .ret (sys EHOSTUNREACH)
  else if rv = PING_HOST_NOT_FOUND then .ret "Host not found"
  else if rv = PING_INVALID_CHECKSUM then .brk "Invalid checksum"
  else if rv = PING_INVALID_SIZE then .ret "Invalid size of reply packet"
  else if rv = PING_INVALID_RESPONSE then .ret "Invalid response"
  else if rv = PING_INVALID_ID then .ret "Invalid ID in response"
  else .brk ""

/-- `icmp_ping_strerror`: the switch, then — for every case that
`break`s out — the fall-through `snprintf(buf, sizeof(buf),
"Unkown (%d)", rv); return buf;`. -/
def icmp_ping_strerror (sys : Int → String) (errnoVal rv : Int) : String :=
  match strerror_switch sys errnoVal rv with
  | .ret s => s
  | .brk _ => "Unkown (" ++ toString rv ++ ")"

/-! ## Claim C10 -/

/-- C10: `icmp_ping_strerror` returns the kind-specific text for every
defined result code except `PING_INVALID_CHECKSUM`: `PING_ERRNO` maps
to `strerror(errno)`, `PING_SUCCESS` to `strerror(0)`, `PING_TIMEOUT`
to `strerror(ETIMEDOUT)`, `PING_HOST_UNREACH` to
`strerror(EHOSTUNREACH)`, and the remaining codes to their fixed
strings — while `PING_INVALID_CHECKSUM` formats "Invalid checksum" into
the buffer but `break`s to the generic fallback and returns
"Unkown (4)" instead. -/
theorem C10_strerror_checksum_fallthrough (sys : Int → String) (e : Int) :
    icmp_ping_strerror sys e PING_ERRNO = sys e
  ∧ icmp_ping_strerror sys e PING_SUCCESS = sys 0
  ∧ icmp_ping_strerror sys e PING_TIMEOUT = sys ETIMEDOUT
  ∧ icmp_ping_strerror sys e PING_HOST_UNREACH = sys EHOSTUNREACH
  ∧ icmp_ping_strerror sys e PING_HOST_NOT_FOUND = "Host not found"
  ∧ icmp_ping_strerror sys e PING_INVALID_SIZE = "Invalid size of reply packet"
  ∧ icmp_ping_strerror sys e PING_INVALID_RESPONSE = "Invalid response"
  ∧ icmp_ping_strerror sys e PING_INVALID_ID = "Invalid ID in response"
  ∧ strerror_switch sys e PING_INVALID_CHECKSUM = .brk "Invalid checksum"
  ∧ icmp_ping_strerror sys e PING_INVALID_CHECKSUM = "Unkown (4)" := by
  refine ⟨rfl, rfl, rfl, rfl, rfl, rfl, rfl, rfl, rfl, rfl⟩

/-! ## Threshold calculator (cluquorumd_net.c, get_interval_tko, lines 177-221)

All quantities are C `int`s; under the claims' no-overflow and
positivity hypotheses they are modelled as `Nat`.  Two C idioms need a
remark:

* `_tko & ~1` (round down to even) is `2 * (_tko / 2)`;
* when `_tko ≤ 1` the C expression `((_tko&~1)-1) / 2` is `(-1)/2 = 0`
  (C truncating division); `Nat`'s saturating `0 - 1 = 0` followed by
  `/ 2` gives the same `0`. -/

/-- `get_interval_tko`: `none` models the `-1` rejection when
`fo_time < 2000000` (failover time below the 2-second floor); otherwise
`some (ping_interval, declare_online, declare_offline)` — the three
values the function publishes under the write lock. -/
def get_interval_tko (fo_time _interval : Nat) : Option (Nat × Nat × Nat) :=
  if fo_time < 2000000 then none
  else
    let _tko := fo_time / _interval
    let up_time := fo_time + 3 * _interval
    let down_time := _interval * ((2 * (_tko / 2) - 1) / 2)
    let ni := (_interval <<< 2) / 3
    some (ni, up_time / ni, down_time / ni)

/-- Arithmetic core of claim C2, in the exact division expressions of
`get_interval_tko` with `4 * b` for `b <<< 2`. -/
theorem get_interval_tko_bounds (t b : Nat) (hb : 1 ≤ b) (ht : 2000000 ≤ t) :
    b * ((2 * (t / b / 2) - 1) / 2) / (4 * b / 3) * (4 * b / 3) < t
  ∧ t ≤ (t + 3 * b) / (4 * b / 3) * (4 * b / 3) := by
  have hni_pos : 0 < 4 * b / 3 := Nat.div_pos (by omega) (by norm_num)
  have hni3 : 3 * (4 * b / 3) ≤ 4 * b := by
    calc 3 * (4 * b / 3) = 4 * b / 3 * 3 := by ring
    _ ≤ 4 * b := Nat.div_mul_le_self _ _
  constructor
  · apply Nat.lt_of_le_of_lt (Nat.div_mul_le_self _ _)
    rcases Nat.eq_zero_or_pos (t / b / 2) with hk0 | hkpos
    · rw [hk0]
      norm_num
      omega
    · obtain ⟨j, hj⟩ : ∃ j, t / b / 2 = j + 1 := ⟨t / b / 2 - 1, by omega⟩
      rw [hj]
      have hm : (2 * (j + 1) - 1) / 2 = j := by omega
      rw [hm]
      have h2k : 2 * (j + 1) ≤ t / b := by omega
      have h1 : 2 * (j + 1) * b ≤ t / b * b := Nat.mul_le_mul_right b h2k
      have h2 : t / b * b ≤ t := Nat.div_mul_le_self t b
      nlinarith [h1, h2, hb]
  · have hdm : 4 * b / 3 * ((t + 3 * b) / (4 * b / 3)) + (t + 3 * b) % (4 * b / 3)
        = t + 3 * b := Nat.div_add_mod (t + 3 * b) (4 * b / 3)
    have hmod : (t + 3 * b) % (4 * b / 3) < 4 * b / 3 :=
      Nat.mod_lt _ hni_pos
    nlinarith [hdm, hmod, hni3, hb]

/-! ## Claim C2 -/

/-- C2: whenever `get_interval_tko` accepts a configuration
(`fo_time ≥ 2000000`, i.e. the failover time is at least 2 time units,
with `base_interval ≥ 1`; arithmetic modelled without overflow), the
published values satisfy
`declare_offline * ping_interval < fo_time ≤ declare_online * ping_interval`. -/
theorem C2_threshold_invariant (t b ni onv offv : Nat) (hb : 1 ≤ b)
    (h : get_interval_tko t b = some (ni, onv, offv)) :
    offv * ni < t ∧ t ≤ onv * ni := by
  have hshift : b <<< 2 = 4 * b := by
    rw [Nat.shiftLeft_eq]
    ring
  by_cases hg : t < 2000000
  · unfold get_interval_tko at h
    rw [if_pos hg] at h
    exact absurd h (by simp)
  · unfold get_interval_tko at h
    rw [if_neg hg] at h
    simp only [hshift, Option.some.injEq, Prod.mk.injEq] at h
    obtain ⟨h1, h2, h3⟩ := h
    subst h1 h2 h3
    exact ⟨(get_interval_tko_bounds t b hb (Nat.le_of_not_lt hg)).1,
           (get_interval_tko_bounds t b hb (Nat.le_of_not_lt hg)).2⟩

/-- C2 witness: `derive(token_timeout = 10, base_interval = 1)` in
consistent time units (1 time unit = 1 second = 1000000 microseconds):
`get_interval_tko 10000000 1000000` publishes interval `1333333`,
`declare_online = 9`, `declare_offline = 3`, and indeed
`3 * 1333333 < 10000000 ≤ 9 * 1333333`. -/
theorem C2_witness :
    get_interval_tko 10000000 1000000 = some (1333333, 9, 3)
  ∧ 3 * 1333333 < 10000000 ∧ 10000000 ≤ 9 * 1333333 :=
  ⟨by decide,
   C2_threshold_invariant 10000000 1000000 1333333 9 3 (by decide) (by decide)⟩

/-! ## net_tiebreaker_init (cluquorumd_net.c, lines 229-248)

The globals the configuration call touches, as one record.  The real
function ends in a bare `return;` (an unspecified return value in C);
the success-path return value is modelled as 0, which no claim relies
on.  The `LOG` calls have no effect on this state. -/

structure NetState where
  ping_interval : Nat
  declare_online : Nat
  declare_offline : Nat
  tb_ip : Option String
  errnoVal : Int
deriving DecidableEq, Repr

/-- `get_interval_tko` as executed for its effect: on success it stores
the three derived values under the write lock and returns 0; on
rejection it returns -1 having written nothing. -/
def get_interval_tko_run (st : NetState) (fo_time _interval : Nat) :
    NetState × Int :=
  match get_interval_tko fo_time _interval with
  | none => (st, -1)
  | some (ni, onv, offv) =>
    ({ st with ping_interval := ni, declare_online := onv,
               declare_offline := offv }, 0)

/-- `net_tiebreaker_init`: sets `errno = EINVAL`; fails on an absent
target; fails if `get_interval_tko` rejects the timing; otherwise
replaces `tb_ip` with a copy of the target and clears `errno`. -/
def net_tiebreaker_init (st : NetState) (target : Option String)
    (token interval : Nat) : NetState × Int :=
  let st1 : NetState := { st with errnoVal := EINVAL }
  match target with
  | none => (st1, -1)
  | some tgt =>
    match get_interval_tko_run st1 token interval with
    | (st2, r) =>
      if r < 0 then (st2, -1)
      else ({ st2 with tb_ip := some tgt, errnoVal := 0 }, 0)

/-! ## Claim C8 -/

/-- C8: `net_tiebreaker_init` fails — returning -1 with
`errno = EINVAL` — when the target is absent or when the token timeout
is below the 2000000-microsecond (2-time-unit) floor, and every such
failed attempt leaves the previously published `ping_interval`,
`declare_online`, `declare_offline` and target values unchanged (the
entire state is unchanged except `errno`, which the function sets to
`EINVAL` on entry). -/
theorem C8_init_failure_preserves_state (st : NetState)
    (target : Option String) (token interval : Nat)
    (hfail : target = none ∨ token < 2000000) :
    net_tiebreaker_init st target token interval =
      ({ st with errnoVal := EINVAL }, -1) := by
  rcases hfail with h | h
  · subst h
    rfl
  · rcases target with _ | tgt
    · rfl
    · simp [net_tiebreaker_init, get_interval_tko_run, get_interval_tko, h]

/-- C8 witness: `derive(token_timeout = 1, base_interval = 1)` in
consistent units (token = 1000000 microseconds = 1 time unit, below the
2-unit floor) against a state with previously published thresholds
`(2000000, 1, 1)` and target `"10.0.0.1"`: the call returns -1 with
`errno = EINVAL` and everything previously published is intact. -/
theorem C8_witness :
    net_tiebreaker_init ⟨2000000, 1, 1, some "10.0.0.1", 0⟩
        (some "10.0.0.1") 1000000 1000000 =
      (⟨2000000, 1, 1, some "10.0.0.1", EINVAL⟩, -1) :=
  C8_init_failure_preserves_state ⟨2000000, 1, 1, some "10.0.0.1", 0⟩
    (some "10.0.0.1") 1000000 1000000 (Or.inr (by decide))

end Qnet
